import Mathlib

/-!
Shallow embedding of the water-quality dashboard (`src/app.py`).

The program is a Streamlit app over a pandas DataFrame.  We model a cell
as either a rational number, a string, or a missing value (pandas `NaN`),
a column as a list of cells, and a table as an ordered association list
from column names to columns (preserving source column order).

`load_data` (src/app.py lines 17-34) reads a CSV, selects the numeric
columns (`select_dtypes(include="number")`: a column is numeric when every
non-missing cell is a number; an all-missing column is numeric), and fills
each numeric column's missing cells with that column's median computed
over its non-missing values (pandas `median()` skips missing values; when
every value is missing the median is itself missing and `fillna` leaves
the cells missing).  On `FileNotFoundError` it reports
`f"File not found: {csv_path}"`; on any other exception it reports
`f"Error loading data: {e}"`; in both cases it returns no table.

The filesystem read is modelled by an explicit argument
`file : Option (Except String Table)`: `none` means the path does not
exist (`FileNotFoundError`), `some (.error e)` means reading/parsing
raised some other exception with message `e`, and `some (.ok t)` means
the CSV parsed to the table `t`.
-/

/-- A cell of the table: a numeric value, a string value, or missing
(pandas `NaN`). -/
inductive Value where
  | num (q : ℚ)
  | str (s : String)
  | missing
deriving DecidableEq, Repr

/-- A column is the list of its cells in row order. -/
abbrev Column := List Value

/-- A table is an ordered list of (column name, column) pairs, in source
column order. -/
abbrev Table := List (String × Column)

/-- Whether a cell is missing (pandas `isnull`). -/
def Value.isMissing : Value → Bool
  | .missing => true
  | _ => false

/-- The numeric values of a column, missing cells dropped, in row order. -/
def numsOf (c : Column) : List ℚ :=
  c.filterMap fun v => match v with
    | .num q => some q
    | _ => none

/-- pandas numeric-dtype test (`select_dtypes(include="number")`): a column
is numeric when no cell is a string.  An all-missing column is numeric
(float dtype). -/
def isNumericCol (c : Column) : Bool :=
  c.all fun v => match v with
    | .str _ => false
    | _ => true

/-- pandas `Series.median()` (numpy median): sort the non-missing values;
odd count gives the middle element, even count the average of the two
middle elements; an empty list of values has no median (`NaN`). -/
def median (l : List ℚ) : Option ℚ :=
  let s := List.insertionSort (· ≤ ·) l
  if s.length = 0 then none
  else if s.length % 2 = 1 then s.get? (s.length / 2)
  else
    match s.get? (s.length / 2 - 1), s.get? (s.length / 2) with
    | some a, some b => some ((a + b) / 2)
    | _, _ => none

/-- `fillna` on one cell: a missing cell becomes the fill value, any other
cell is unchanged. -/
def fillValue (m : ℚ) : Value → Value
  | .missing => .num m
  | v => v

/-- `fillna(median)` on one column: when the column's median exists every
missing cell is replaced by it; when the median is itself missing (`NaN`,
i.e. the column has no non-missing value) `fillna` changes nothing. -/
def fillColumn (c : Column) : Column :=
  match median (numsOf c) with
  | none => c
  | some m => c.map (fillValue m)

/-- The cleaning step of `load_data` on one column: numeric columns are
median-filled, non-numeric columns are untouched
(`df[numeric_cols] = df[numeric_cols].fillna(df[numeric_cols].median())`). -/
def cleanColumn (c : Column) : Column :=
  if isNumericCol c then fillColumn c else c

/-- The cleaning step of `load_data` on the whole table: every column is
cleaned independently; column names and order are unchanged. -/
def cleanTable (t : Table) : Table :=
  t.map fun nc => (nc.1, cleanColumn nc.2)

/-- The result of `load_data`: a cleaned table, or a typed failure with
the user-visible `st.error` message. -/
inductive LoadResult where
  | ok (t : Table)
  | fileNotFound (msg : String)
  | parseError (msg : String)
deriving DecidableEq, Repr

/-- `load_data` (src/app.py lines 17-34).  The filesystem is the explicit
`file` argument (see the module docstring). -/
def load_data (csv_path : String) (file : Option (Except String Table)) :
    LoadResult :=
  match file with
  | none => .fileNotFound ("File not found: " ++ csv_path)
  | some (.error e) => .parseError ("Error loading data: " ++ e)
  | some (.ok df) => .ok (cleanTable df)

/-- Column lookup `df[name]`: the first column with the given name. -/
def colGet (t : Table) (name : String) : Option Column :=
  (t.find? fun nc => nc.1 = name).map Prod.snd

/-- The non-missing cells of a column, in row order (what pandas
`value_counts()` counts: it drops missing values). -/
def nonMissingVals (c : Column) : List Value :=
  c.filter fun v => !v.isMissing

/-- The categories of `value_counts()`: the distinct non-missing values. -/
def vcCats (c : Column) : List Value :=
  (nonMissingVals c).dedup

/-- The count `value_counts()` reports for one category. -/
def vcCount (c : Column) (v : Value) : Nat :=
  (nonMissingVals c).count v

/-- The sum of all counts reported by `value_counts()` (equivalently the
number of non-missing cells). -/
def vcTotal (c : Column) : Nat :=
  (nonMissingVals c).length

/-- The six pages of the sidebar selector (src/app.py lines 47-50). -/
inductive Page where
  | home
  | overview
  | trends
  | distribution
  | potability
  | about
deriving DecidableEq, Repr

/-- A user-visible display item produced by a render pass. -/
inductive Item where
  | title (s : String)
  | text (s : String)
  | warn (s : String)
  | errMsg (s : String)
  | image (path : String)
  | tableView
  | chart
deriving DecidableEq, Repr

/-- An uncaught exception during a render pass: a failing column access
(`KeyError`), a missing image file, matplotlib's category converter
refusing a column that mixes strings with other cells (`TypeError`), or
`np.histogram` refusing a non-finite automatic bin range (`ValueError`). -/
inductive RenderErr where
  | keyError (k : Option String)
  | mediaError (path : String)
  | typeError
  | valueError
deriving DecidableEq, Repr

/-- Whether a cell is a string. -/
def Value.isStr : Value → Bool
  | .str _ => true
  | _ => false

/-- Whether matplotlib can convert the column for drawing (`ax.plot` at
src/app.py:98 and `ax.hist` at src/app.py:116): an all-string column is
drawn via the category converter, and a column with no string cell is
drawn numerically (missing cells are `NaN`, which draw as gaps), but a
column mixing string cells with numeric or missing cells makes the
category converter raise a TypeError. -/
def plotOk (c : Column) : Bool :=
  (c.all fun v => v.isStr) || (c.all fun v => !v.isStr)

/-- Whether the automatic bin range of `ax.hist(c, bins=20)`
(src/app.py:116) is finite: matplotlib takes `nanmin`/`nanmax` of a
nonempty column, which is `NaN` when every cell is missing, and
`np.histogram` then raises a ValueError; an empty column and a column with
at least one non-missing cell are fine. -/
def histRangeOk (c : Column) : Bool :=
  c.isEmpty || c.any fun v => !v.isMissing

/-- `st.selectbox(label, options)` with the user's choice `i`: with a
nonempty option list it returns the chosen option (the widget cannot
return anything outside the list; `i` past the end models any in-range
choice, clamped); with an empty option list it returns `None`. -/
def selectbox (opts : List String) (i : Nat) : Option String :=
  opts.get? (min i (opts.length - 1))

/-- The selectable parameter list of the Trends and Distribution pages
(src/app.py lines 94 and 112):
`[col for col in data.columns if col != "Potability"]`. -/
def paramsOf (t : Table) : List String :=
  (t.map Prod.fst).filter fun c => c ≠ "Potability"

/-- The `st.error` messages emitted by `load_data` itself (lines 30, 33):
a failed load reports its message; a successful load reports nothing. -/
def loadMessages : LoadResult → List Item
  | .ok _ => []
  | .fileNotFound m => [.errMsg m]
  | .parseError m => [.errMsg m]

/-- One render pass of the selected page (src/app.py lines 55-167).

* `assetOk` models whether the Home page's static image file
  `assets/cover.jpg` exists; `st.image` on a missing file raises.
* `sel` is the user's selectbox choice on the Trends/Distribution pages.
* Column access `data[x]` raises `KeyError` when `x` is not a column name
  of the table — in particular `data[None]` after `st.selectbox` returned
  `None` because its option list was empty.
* `ax.plot` and `ax.hist` raise a TypeError when the drawn column mixes
  string cells with non-string cells (`plotOk`), and `ax.hist`
  additionally raises a ValueError when its automatic bin range is
  non-finite, i.e. on a nonempty all-missing column (`histRangeOk`).
* The Overview tables (`head`, `describe`, `isnull().sum()`) and the
  Potability table and pie chart are total: `value_counts` yields
  non-negative counts, `ax.pie` accepts them (including the empty case),
  and `index.map` turns unknown categories into `NaN` labels without
  raising. -/
def renderPage (page : Page) (r : LoadResult) (assetOk : Bool) (sel : Nat) :
    Except RenderErr (List Item) :=
  match page with
  | .home =>
      if assetOk then
        .ok [.title "💧 Water Quality Dashboard",
             .text "Exploratory Analysis of Water Quality Parameters",
             .image "assets/cover.jpg"]
      else .error (.mediaError "assets/cover.jpg")
  | .overview =>
      match r with
      | .ok _ => .ok [.title "📁 Dataset Overview", .tableView, .tableView,
                      .tableView]
      | _ => .ok [.title "📁 Dataset Overview",
                  .warn "Dataset not found. Please add your CSV in the data folder."]
  | .trends =>
      match r with
      | .ok t =>
          match selectbox (paramsOf t) sel with
          | none => .error (.keyError none)
          | some p =>
              match colGet t p with
              | none => .error (.keyError (some p))
              | some c =>
                  if plotOk c then
                    .ok [.title "📈 Parameter Trends Over Samples", .chart]
                  else .error .typeError
      | _ => .ok [.title "📈 Parameter Trends Over Samples",
                  .warn "No data available for trends."]
  | .distribution =>
      match r with
      | .ok t =>
          match selectbox (paramsOf t) sel with
          | none => .error (.keyError none)
          | some p =>
              match colGet t p with
              | none => .error (.keyError (some p))
              | some c =>
                  if plotOk c then
                    if histRangeOk c then
                      .ok [.title "📊 Parameter Distribution", .chart]
                    else .error .valueError
                  else .error .typeError
      | _ => .ok [.title "📊 Parameter Distribution",
                  .warn "No data available for distribution."]
  | .potability =>
      match r with
      | .ok t =>
          match colGet t "Potability" with
          | some _ => .ok [.title "💧 Water Potability Summary", .tableView, .chart]
          | none => .ok [.title "💧 Water Potability Summary",
                         .warn "No 'Potability' column found in dataset."]
      | _ => .ok [.title "💧 Water Potability Summary",
                  .warn "No data available for Potability analysis."]
  | .about => .ok [.title "📚 About This Dashboard",
                   .text "Exploratory analysis of water quality parameters."]

/-! ## Helper lemmas -/

theorem colGet_cons (n : String) (c : Column) (t : Table) (name : String) :
    colGet ((n, c) :: t) name = if n = name then some c else colGet t name := by
  by_cases h : n = name <;> simp [colGet, List.find?_cons, h]

theorem colGet_cleanTable (t : Table) (name : String) :
    colGet (cleanTable t) name = (colGet t name).map cleanColumn := by
  induction t with
  | nil => rfl
  | cons hd tl ih =>
    obtain ⟨n, c⟩ := hd
    show colGet ((n, cleanColumn c) :: cleanTable tl) name = _
    rw [colGet_cons, colGet_cons]
    by_cases h : n = name
    · simp [h]
    · simp [h, ih]

theorem fillValue_of_not_missing (m : ℚ) (v : Value) (h : v ≠ Value.missing) :
    fillValue m v = v := by
  cases v with
  | num q => rfl
  | str s => rfl
  | missing => exact absurd rfl h

theorem fillColumn_of_noMissing (c : Column) (h : ∀ v ∈ c, v ≠ Value.missing) :
    fillColumn c = c := by
  unfold fillColumn
  cases hm : median (numsOf c) with
  | none => rfl
  | some m =>
    have hmap : c.map (fillValue m) = c.map id :=
      List.map_congr_left fun v hv => fillValue_of_not_missing m v (h v hv)
    simp [hmap]

theorem cleanColumn_of_noMissing (c : Column) (h : ∀ v ∈ c, v ≠ Value.missing) :
    cleanColumn c = c := by
  unfold cleanColumn
  split
  · exact fillColumn_of_noMissing c h
  · rfl

theorem median_isSome (l : List ℚ) (h : l ≠ []) : (median l).isSome = true := by
  unfold median
  have hpos : 0 < (List.insertionSort (· ≤ ·) l).length := by
    rw [List.length_insertionSort]
    exact List.length_pos.mpr h
  set s := List.insertionSort (· ≤ ·) l with hs
  rw [if_neg (Nat.pos_iff_ne_zero.mp hpos)]
  by_cases hpar : s.length % 2 = 1
  · rw [if_pos hpar]
    have hlt : s.length / 2 < s.length := Nat.div_lt_self hpos (by norm_num)
    rw [List.get?_eq_get hlt]
    rfl
  · rw [if_neg hpar]
    have hlt2 : s.length / 2 < s.length := Nat.div_lt_self hpos (by norm_num)
    have hlt1 : s.length / 2 - 1 < s.length := lt_of_le_of_lt (Nat.sub_le _ _) hlt2
    rw [List.get?_eq_get hlt1, List.get?_eq_get hlt2]
    rfl

theorem fillColumn_get (c : Column) (m : ℚ) (hm : median (numsOf c) = some m)
    (i : Nat) : (fillColumn c).get? i = (c.get? i).map (fillValue m) := by
  unfold fillColumn
  rw [hm]
  exact List.get?_map _ _ _

theorem colGet_isSome_of_mem (t : Table) (name : String)
    (h : name ∈ t.map Prod.fst) : (colGet t name).isSome = true := by
  induction t with
  | nil => simp at h
  | cons hd tl ih =>
    obtain ⟨n, c⟩ := hd
    rw [colGet_cons]
    by_cases hn : n = name
    · simp [hn]
    · rw [if_neg hn]
      apply ih
      simp only [List.map_cons, List.mem_cons] at h
      rcases h with h | h
      · exact absurd h.symm hn
      · exact h

theorem colGet_mem (t : Table) (name : String) (c : Column)
    (h : colGet t name = some c) : (name, c) ∈ t := by
  unfold colGet at h
  cases hf : t.find? (fun nc => nc.1 = name) with
  | none => rw [hf] at h; simp at h
  | some pr =>
    rw [hf] at h
    simp only [Option.map, Option.some.injEq] at h
    have hp : pr.1 = name := by simpa using List.find?_some hf
    have hmem := List.mem_of_find?_eq_some hf
    have hpr : pr = (name, c) := by
      obtain ⟨a, b⟩ := pr
      simp only at h hp
      rw [hp, h]
    rwa [hpr] at hmem

theorem selectbox_mem (opts : List String) (i : Nat) (h : opts ≠ []) :
    ∃ p, selectbox opts i = some p ∧ p ∈ opts := by
  unfold selectbox
  have hpos : 0 < opts.length := List.length_pos.mpr h
  have hlt : min i (opts.length - 1) < opts.length :=
    lt_of_le_of_lt (min_le_right _ _) (Nat.sub_lt hpos one_pos)
  rw [List.get?_eq_get hlt]
  exact ⟨_, rfl, List.get_mem _ _ _⟩

theorem nonMissingVals_of_noMissing (c : Column)
    (h : ∀ v ∈ c, v ≠ Value.missing) : nonMissingVals c = c := by
  unfold nonMissingVals
  apply List.filter_eq_self.mpr
  intro v hv
  cases hvv : v with
  | num q => rfl
  | str s => rfl
  | missing => exact absurd hvv (h v hv)

/-- The spec's standard median, stated in the spec's own words (for the
refinement claim C3): `m` is a median of `l` when some sorted rearrangement
`s` of `l` has `m` as its middle element (odd length) or as the average of
its two middle elements (even length). -/
def IsStdMedian (l : List ℚ) (m : ℚ) : Prop :=
  ∃ s : List ℚ, s.Perm l ∧ List.Sorted (· ≤ ·) s ∧
    ((s.length % 2 = 1 ∧ s.get? (s.length / 2) = some m) ∨
     (s.length % 2 = 0 ∧ ∃ a b, s.get? (s.length / 2 - 1) = some a ∧
        s.get? (s.length / 2) = some b ∧ m = (a + b) / 2))

theorem median_spec (l : List ℚ) (h : l ≠ []) :
    ∃ m, median l = some m ∧ IsStdMedian l m := by
  unfold median
  have hpos : 0 < (List.insertionSort (· ≤ ·) l).length := by
    rw [List.length_insertionSort]
    exact List.length_pos.mpr h
  set s := List.insertionSort (· ≤ ·) l with hs
  have hperm : s.Perm l := List.perm_insertionSort _ _
  have hsort : List.Sorted (· ≤ ·) s := List.sorted_insertionSort _ _
  rw [if_neg (Nat.pos_iff_ne_zero.mp hpos)]
  by_cases hpar : s.length % 2 = 1
  · rw [if_pos hpar]
    have hlt : s.length / 2 < s.length := Nat.div_lt_self hpos (by norm_num)
    rw [List.get?_eq_get hlt]
    exact ⟨_, rfl, s, hperm, hsort, Or.inl ⟨hpar, List.get?_eq_get hlt⟩⟩
  · rw [if_neg hpar]
    have hpar0 : s.length % 2 = 0 := by omega
    have hlt2 : s.length / 2 < s.length := Nat.div_lt_self hpos (by norm_num)
    have hlt1 : s.length / 2 - 1 < s.length := lt_of_le_of_lt (Nat.sub_le _ _) hlt2
    rw [List.get?_eq_get hlt1, List.get?_eq_get hlt2]
    exact ⟨_, rfl, s, hperm, hsort,
      Or.inr ⟨hpar0, _, _, List.get?_eq_get hlt1, List.get?_eq_get hlt2, rfl⟩⟩

/-! ## Claims -/

/-- C1, counterexample: the claim "the Potability column is never imputed"
fails.  On a source table whose Potability column is `[1, missing, 0, 1]`,
`load_data` succeeds and returns Potability `[1, 1, 0, 1]`: the missing
label cell was filled with the column median `1`, so the returned column
is not identical to the source column. -/
theorem c1_counterexample :
    load_data "data/water_potability.csv"
        (some (Except.ok [("Potability",
          [Value.num 1, Value.missing, Value.num 0, Value.num 1])])) =
      LoadResult.ok [("Potability",
        [Value.num 1, Value.num 1, Value.num 0, Value.num 1])] ∧
    ([Value.num 1, Value.num 1, Value.num 0, Value.num 1] : Column) ≠
      [Value.num 1, Value.missing, Value.num 0, Value.num 1] := by
  constructor
  · rfl
  · simp

/-- C1, amended: the Potability column is preserved value-for-value by a
successful load whenever the source Potability column contains no missing
cells; when it does contain missing cells it is imputed like any other
numeric column (see the counterexample). -/
theorem c1_potability_preserved (path : String) (t : Table) (c : Column)
    (hc : colGet t "Potability" = some c)
    (hnm : ∀ v ∈ c, v ≠ Value.missing) :
    ∃ tc, load_data path (some (Except.ok t)) = LoadResult.ok tc ∧
      colGet tc "Potability" = some c := by
  refine ⟨cleanTable t, rfl, ?_⟩
  rw [colGet_cleanTable, hc]
  simp [cleanColumn_of_noMissing c hnm]

/-- C1, witness for the amended theorem at a concrete table. -/
theorem c1_witness :
    ∃ tc, load_data "data/water_potability.csv"
        (some (Except.ok [("Potability", [Value.num 1, Value.num 0])])) =
      LoadResult.ok tc ∧
      colGet tc "Potability" = some [Value.num 1, Value.num 0] :=
  c1_potability_preserved "data/water_potability.csv" _ _ rfl (by decide)

/-- C2, counterexample: the no-missing-numeric invariant fails for a
numeric column that is entirely missing in the source: its median is
undefined, `fillna` leaves the cells missing, and the load still
succeeds. -/
theorem c2_counterexample :
    load_data "data/water_potability.csv"
        (some (Except.ok [("Sulfate", [Value.missing])])) =
      LoadResult.ok [("Sulfate", [Value.missing])] ∧
    isNumericCol [Value.missing] = true ∧
    Value.isMissing Value.missing = true := by
  refine ⟨?_, rfl, rfl⟩
  rfl

/-- C2, amended: every numeric column with at least one non-missing value
in the source has no missing values in the loaded Dataset (each missing
cell having been replaced by the column median). -/
theorem c2_no_missing_after_load (path : String) (t : Table) (name : String)
    (c0 : Column) (hc0 : colGet t name = some c0)
    (hnum : isNumericCol c0 = true) (hne : numsOf c0 ≠ []) :
    ∃ tc c, load_data path (some (Except.ok t)) = LoadResult.ok tc ∧
      colGet tc name = some c ∧ ∀ v ∈ c, v.isMissing = false := by
  refine ⟨cleanTable t, cleanColumn c0, rfl, ?_, ?_⟩
  · rw [colGet_cleanTable, hc0]
    rfl
  · intro v hv
    unfold cleanColumn at hv
    rw [if_pos hnum] at hv
    obtain ⟨m, hm⟩ := Option.isSome_iff_exists.mp (median_isSome _ hne)
    unfold fillColumn at hv
    rw [hm] at hv
    obtain ⟨w, hw, hwv⟩ := List.mem_map.mp hv
    rw [← hwv]
    cases w <;> rfl

/-- C2, witness for the amended theorem at a concrete table. -/
theorem c2_witness :
    ∃ tc c, load_data "data/water_potability.csv"
        (some (Except.ok [("pH", [Value.num 7, Value.missing])])) =
      LoadResult.ok tc ∧
      colGet tc "pH" = some c ∧ ∀ v ∈ c, v.isMissing = false :=
  c2_no_missing_after_load "data/water_potability.csv" _ "pH" _ rfl rfl
    (by decide)

/-- C3: median imputation is correct.  For every numeric column with at
least one non-missing value, the load fills every missing cell with the
column's median — which satisfies the spec's standard definition
(`IsStdMedian`: middle of the sorted non-missing values, or the average of
the two middle elements for an even count) — and keeps every non-missing
cell unchanged. -/
theorem c3_median_imputation (c : Column) (hnum : isNumericCol c = true)
    (hne : numsOf c ≠ []) :
    ∃ m, median (numsOf c) = some m ∧ IsStdMedian (numsOf c) m ∧
      (∀ i, c.get? i = some Value.missing →
        (cleanColumn c).get? i = some (Value.num m)) ∧
      (∀ i q, c.get? i = some (Value.num q) →
        (cleanColumn c).get? i = some (Value.num q)) := by
  obtain ⟨m, hm, hstd⟩ := median_spec (numsOf c) hne
  refine ⟨m, hm, hstd, ?_, ?_⟩
  · intro i hi
    unfold cleanColumn
    rw [if_pos hnum, fillColumn_get c m hm i, hi]
    rfl
  · intro i q hi
    unfold cleanColumn
    rw [if_pos hnum, fillColumn_get c m hm i, hi]
    rfl

/-- C3, witness: the spec's end-to-end example column `[7.0, missing, 9.0]`
(median of 7 and 9 is 8). -/
theorem c3_witness :
    ∃ m, median (numsOf [Value.num 7, Value.missing, Value.num 9]) = some m ∧
      IsStdMedian (numsOf [Value.num 7, Value.missing, Value.num 9]) m ∧
      (∀ i, ([Value.num 7, Value.missing, Value.num 9] : Column).get? i =
          some Value.missing →
        (cleanColumn [Value.num 7, Value.missing, Value.num 9]).get? i =
          some (Value.num m)) ∧
      (∀ i q, ([Value.num 7, Value.missing, Value.num 9] : Column).get? i =
          some (Value.num q) →
        (cleanColumn [Value.num 7, Value.missing, Value.num 9]).get? i =
          some (Value.num q)) :=
  c3_median_imputation [Value.num 7, Value.missing, Value.num 9] rfl
    (by decide)

/-- C4, counterexample: on the Potability page the value-count categories
need not be a subset of `{0, 1}` for every successfully loaded Dataset
with a Potability column.  A source Potability column `[0, missing, 1]`
loads successfully, but the missing label cell is imputed with the column
median `(0 + 1) / 2 = 1/2`, so `value_counts` has the category `1/2`. -/
theorem c4_counterexample :
    load_data "data/water_potability.csv"
        (some (Except.ok [("Potability",
          [Value.num 0, Value.missing, Value.num 1])])) =
      LoadResult.ok [("Potability",
        [Value.num 0, Value.num ((0 + 1) / 2), Value.num 1])] ∧
    Value.num ((0 + 1) / 2) ∈
      vcCats [Value.num 0, Value.num ((0 + 1) / 2), Value.num 1] ∧
    ¬ (Value.num ((0 + 1) / 2) = Value.num 0 ∨
       Value.num ((0 + 1) / 2) = Value.num 1) := by
  refine ⟨rfl, ?_, ?_⟩
  · unfold vcCats
    rw [List.mem_dedup]
    unfold nonMissingVals
    simp [Value.isMissing]
  · rintro (h | h) <;> (injection h with h; norm_num at h)

/-- C4, amended: on every successfully loaded Dataset whose source
Potability column has no missing cells and only values in `{0, 1}` (the
spec's input format), the Potability value counts sum to the Dataset's
row count and the categories present are a subset of `{0, 1}`. -/
theorem c4_value_counts (path : String) (t : Table) (n : Nat) (c0 : Column)
    (hrect : ∀ p ∈ t, (Prod.snd p).length = n)
    (hc0 : colGet t "Potability" = some c0)
    (hvals : ∀ v ∈ c0, v = Value.num 0 ∨ v = Value.num 1) :
    ∃ tc, load_data path (some (Except.ok t)) = LoadResult.ok tc ∧
      colGet tc "Potability" = some c0 ∧
      vcTotal c0 = n ∧
      ((vcCats c0).map (vcCount c0)).sum = n ∧
      (∀ v ∈ vcCats c0, v = Value.num 0 ∨ v = Value.num 1) := by
  have hnm : ∀ v ∈ c0, v ≠ Value.missing := by
    intro v hv
    rcases hvals v hv with h | h <;> simp [h]
  have hval : nonMissingVals c0 = c0 := nonMissingVals_of_noMissing c0 hnm
  have hlen : c0.length = n := hrect _ (colGet_mem t "Potability" c0 hc0)
  refine ⟨cleanTable t, rfl, ?_, ?_, ?_, ?_⟩
  · rw [colGet_cleanTable, hc0]
    simp [cleanColumn_of_noMissing c0 hnm]
  · unfold vcTotal
    rw [hval, hlen]
  · show ((nonMissingVals c0).dedup.map
        fun v => (nonMissingVals c0).count v).sum = n
    rw [List.sum_map_count_dedup_eq_length, hval, hlen]
  · intro v hv
    apply hvals
    have hv2 : v ∈ nonMissingVals c0 := List.dedup_subset _ hv
    rwa [hval] at hv2

/-- C4, witness for the amended theorem at a concrete table. -/
theorem c4_witness :
    ∃ tc, load_data "data/water_potability.csv"
        (some (Except.ok [("Potability",
          [Value.num 1, Value.num 0, Value.num 1])])) = LoadResult.ok tc ∧
      colGet tc "Potability" = some [Value.num 1, Value.num 0, Value.num 1] ∧
      vcTotal [Value.num 1, Value.num 0, Value.num 1] = 3 ∧
      ((vcCats [Value.num 1, Value.num 0, Value.num 1]).map
        (vcCount [Value.num 1, Value.num 0, Value.num 1])).sum = 3 ∧
      (∀ v ∈ vcCats [Value.num 1, Value.num 0, Value.num 1],
        v = Value.num 0 ∨ v = Value.num 1) :=
  c4_value_counts "data/water_potability.csv" _ 3 _
    (by intro p hp; simp only [List.mem_singleton] at hp; rw [hp]; rfl) rfl
    (by decide)

/-- C5: loading a nonexistent path yields a FileNotFound result whose
message contains the attempted path, and no Dataset. -/
theorem c5_file_not_found (p : String) :
    load_data p none = LoadResult.fileNotFound ("File not found: " ++ p) ∧
    (∃ a b, "File not found: " ++ p = a ++ p ++ b) ∧
    ∀ t, load_data p none ≠ LoadResult.ok t := by
  refine ⟨rfl, ⟨"File not found: ", "", by simp⟩, ?_⟩
  intro t h
  exact LoadResult.noConfusion h

/-- C6: loading a malformed CSV (any unexpected exception `e`) yields a
ParseError result whose message contains the exception text, and no
Dataset. -/
theorem c6_parse_error (p e : String) :
    load_data p (some (Except.error e)) =
      LoadResult.parseError ("Error loading data: " ++ e) ∧
    (∃ a b, "Error loading data: " ++ e = a ++ e ++ b) ∧
    ∀ t, load_data p (some (Except.error e)) ≠ LoadResult.ok t := by
  refine ⟨rfl, ⟨"Error loading data: ", "", by simp⟩, ?_⟩
  intro t h
  exact LoadResult.noConfusion h

/-- C7, counterexample: rendering does not complete for every PageSelection
and LoadResult.  On a successfully loaded Dataset whose only column is
Potability, the Parameter Trends page's selectable list is empty, the
selectbox yields no selection (`None`), and the column access `data[None]`
raises a KeyError instead of degrading to a warning. -/
theorem c7_counterexample :
    renderPage Page.trends (LoadResult.ok [("Potability", [Value.num 1])])
        true 0 =
      Except.error (RenderErr.keyError none) ∧
    (renderPage Page.trends (LoadResult.ok [("Potability", [Value.num 1])])
        true 0).isOk = false := by
  exact ⟨rfl, rfl⟩

/-- C7, amended: provided the Home page's cover image asset exists,
rendering any page for any LoadResult completes without an exception —
except that the Trends and Distribution pages additionally require the
loaded Dataset to have at least one non-Potability column (otherwise their
empty selectbox leads to a KeyError; see the counterexample) and every
selectable column to be drawable: not mixing string cells with other
cells (matplotlib's category converter raises TypeError) and, for the
Distribution histogram, not being nonempty-and-entirely-missing (the
automatic bin range is then non-finite and `ax.hist` raises ValueError).
Load failures of both kinds are reported as user-visible error messages,
and the data-dependent pages degrade to warnings when no Dataset is
available. -/
theorem c7_render_total (page : Page) (r : LoadResult) (sel : Nat)
    (hparams : ∀ t, r = LoadResult.ok t →
      (page = Page.trends ∨ page = Page.distribution) → paramsOf t ≠ [])
    (hcols : ∀ t, r = LoadResult.ok t →
      (page = Page.trends ∨ page = Page.distribution) →
      ∀ p ∈ paramsOf t, ∀ c, colGet t p = some c →
        plotOk c = true ∧ histRangeOk c = true) :
    (renderPage page r true sel).isOk = true ∧
    (∀ m, r = LoadResult.fileNotFound m → loadMessages r = [Item.errMsg m]) ∧
    (∀ m, r = LoadResult.parseError m → loadMessages r = [Item.errMsg m]) := by
  refine ⟨?_, ?_, ?_⟩
  · cases page with
    | home => rfl
    | about => rfl
    | overview => cases r <;> rfl
    | potability =>
        cases r with
        | ok t =>
            cases hc : colGet t "Potability" <;> simp [renderPage, hc, Except.isOk, Except.toBool]
        | fileNotFound m => rfl
        | parseError m => rfl
    | trends =>
        cases r with
        | ok t =>
            obtain ⟨p, hp, hmem⟩ :=
              selectbox_mem (paramsOf t) sel (hparams t rfl (Or.inl rfl))
            have hmem2 : p ∈ t.map Prod.fst := List.mem_of_mem_filter hmem
            obtain ⟨c, hc⟩ := Option.isSome_iff_exists.mp
              (colGet_isSome_of_mem t p hmem2)
            obtain ⟨hpl, hhr⟩ := hcols t rfl (Or.inl rfl) p hmem c hc
            simp [renderPage, hp, hc, hpl, Except.isOk, Except.toBool]
        | fileNotFound m => rfl
        | parseError m => rfl
    | distribution =>
        cases r with
        | ok t =>
            obtain ⟨p, hp, hmem⟩ :=
              selectbox_mem (paramsOf t) sel (hparams t rfl (Or.inr rfl))
            have hmem2 : p ∈ t.map Prod.fst := List.mem_of_mem_filter hmem
            obtain ⟨c, hc⟩ := Option.isSome_iff_exists.mp
              (colGet_isSome_of_mem t p hmem2)
            obtain ⟨hpl, hhr⟩ := hcols t rfl (Or.inr rfl) p hmem c hc
            simp [renderPage, hp, hc, hpl, hhr, Except.isOk, Except.toBool]
        | fileNotFound m => rfl
        | parseError m => rfl
  · intro m hm
    rw [hm]
    rfl
  · intro m hm
    rw [hm]
    rfl

/-- C7, witness for the amended theorem at a concrete page and result. -/
theorem c7_witness :
    (renderPage Page.trends (LoadResult.ok [("pH", [Value.num 7])]) true
        0).isOk = true ∧
    (∀ m, LoadResult.ok [("pH", [Value.num 7])] = LoadResult.fileNotFound m →
      loadMessages (LoadResult.ok [("pH", [Value.num 7])]) =
        [Item.errMsg m]) ∧
    (∀ m, LoadResult.ok [("pH", [Value.num 7])] = LoadResult.parseError m →
      loadMessages (LoadResult.ok [("pH", [Value.num 7])]) =
        [Item.errMsg m]) :=
  c7_render_total Page.trends (LoadResult.ok [("pH", [Value.num 7])]) 0
    (by
      intro t ht hpage
      injection ht with h
      rw [← h]
      decide)
    (by
      intro t ht hpage p hp c hc
      injection ht with h
      subst h
      have hps : paramsOf [("pH", [Value.num 7])] = ["pH"] := rfl
      rw [hps] at hp
      have hp2 : p = "pH" := by simpa using hp
      subst hp2
      have hcg : colGet [("pH", [Value.num 7])] "pH" =
          some [Value.num 7] := rfl
      rw [hcg] at hc
      injection hc with h2
      rw [← h2]
      exact ⟨rfl, rfl⟩)

/-- C8, counterexample: "rendering the plot for any selected parameter
from the list never errors" fails.  The table whose single column is
Sulfate = `[missing]` is itself the result of a successful load (an
all-missing numeric column is preserved, see C10), Sulfate is in the
selectable list, but the Distribution page's `ax.hist` raises a
ValueError: the automatic bin range of a nonempty all-NaN column is not
finite. -/
theorem c8_counterexample :
    load_data "data/water_potability.csv"
        (some (Except.ok [("Sulfate", [Value.missing])])) =
      LoadResult.ok [("Sulfate", [Value.missing])] ∧
    selectbox (paramsOf [("Sulfate", [Value.missing])]) 0 = some "Sulfate" ∧
    renderPage Page.distribution
        (LoadResult.ok [("Sulfate", [Value.missing])]) true 0 =
      Except.error RenderErr.valueError := by
  exact ⟨rfl, rfl, rfl⟩

/-- C8, amended: the selectable parameter list is exactly the Dataset's
columns excluding Potability in column order, and rendering the plot for a
parameter selected from that list completes without an exception provided
the selected column is drawable: it does not mix string cells with other
cells, and — for the Distribution histogram — it is empty or has at least
one non-missing value (a nonempty entirely-missing column makes `ax.hist`
raise ValueError; see the counterexample). -/
theorem c8_params_safe (t : Table) (p : String) (i : Nat) (c : Column)
    (hp : selectbox (paramsOf t) i = some p)
    (hc : colGet t p = some c)
    (hplot : plotOk c = true)
    (hrange : histRangeOk c = true) :
    paramsOf t = (t.map Prod.fst).filter (fun x => x ≠ "Potability") ∧
    p ≠ "Potability" ∧
    (colGet t p).isSome = true ∧
    (renderPage Page.trends (LoadResult.ok t) true i).isOk = true ∧
    (renderPage Page.distribution (LoadResult.ok t) true i).isOk = true := by
  have hmem : p ∈ paramsOf t := by
    unfold selectbox at hp
    exact List.get?_mem hp
  have hpred : p ≠ "Potability" := by
    have := List.of_mem_filter hmem
    simpa using this
  refine ⟨rfl, hpred, ?_, ?_, ?_⟩
  · rw [hc]
    rfl
  · simp [renderPage, hp, hc, hplot, Except.isOk, Except.toBool]
  · simp [renderPage, hp, hc, hplot, hrange, Except.isOk, Except.toBool]

/-- C8, witness for the amended theorem at a concrete table and
selection. -/
theorem c8_witness :
    paramsOf [("pH", [Value.num 7]), ("Potability", [Value.num 1])] =
      ([("pH", [Value.num 7]), ("Potability", [Value.num 1])].map
        Prod.fst).filter (fun x => x ≠ "Potability") ∧
    "pH" ≠ "Potability" ∧
    (colGet [("pH", [Value.num 7]), ("Potability", [Value.num 1])]
      "pH").isSome = true ∧
    (renderPage Page.trends
      (LoadResult.ok [("pH", [Value.num 7]), ("Potability", [Value.num 1])])
      true 0).isOk = true ∧
    (renderPage Page.distribution
      (LoadResult.ok [("pH", [Value.num 7]), ("Potability", [Value.num 1])])
      true 0).isOk = true :=
  c8_params_safe [("pH", [Value.num 7]), ("Potability", [Value.num 1])]
    "pH" 0 [Value.num 7] (by decide) rfl rfl rfl

/-- C9: a successful load changes nothing it does not impute: every source
column with no missing cells is value-for-value identical in the loaded
Dataset, and the table's column names, column order and column count are
preserved exactly. -/
theorem c9_untouched_columns (path : String) (t : Table) (name : String)
    (c : Column) (hc : colGet t name = some c)
    (hnm : ∀ v ∈ c, v ≠ Value.missing) :
    ∃ tc, load_data path (some (Except.ok t)) = LoadResult.ok tc ∧
      colGet tc name = some c ∧
      tc.map Prod.fst = t.map Prod.fst ∧
      tc.length = t.length := by
  refine ⟨cleanTable t, rfl, ?_, ?_, ?_⟩
  · rw [colGet_cleanTable, hc]
    simp [cleanColumn_of_noMissing c hnm]
  · show (t.map fun nc => (nc.1, cleanColumn nc.2)).map Prod.fst =
      t.map Prod.fst
    rw [List.map_map]
    rfl
  · show (t.map fun nc => (nc.1, cleanColumn nc.2)).length = t.length
    rw [List.length_map]

/-- C9, witness at a concrete table. -/
theorem c9_witness :
    ∃ tc, load_data "data/water_potability.csv"
        (some (Except.ok [("pH", [Value.num 7, Value.num 8]),
          ("Potability", [Value.num 1, Value.num 0])])) =
      LoadResult.ok tc ∧
      colGet tc "pH" = some [Value.num 7, Value.num 8] ∧
      tc.map Prod.fst =
        [("pH", [Value.num 7, Value.num 8]),
         ("Potability", [Value.num 1, Value.num 0])].map Prod.fst ∧
      tc.length = [("pH", [Value.num 7, Value.num 8]),
         ("Potability", [Value.num 1, Value.num 0])].length :=
  c9_untouched_columns "data/water_potability.csv" _ "pH" _ rfl (by decide)

/-- C10: if a numeric column is entirely missing in the source, the load
still succeeds, and that column is returned unchanged — still entirely
missing — so the no-missing-numeric invariant does not hold for it. -/
theorem c10_all_missing_column (path : String) (t : Table) (name : String)
    (c : Column) (hc : colGet t name = some c)
    (hall : ∀ v ∈ c, v = Value.missing) :
    load_data path (some (Except.ok t)) = LoadResult.ok (cleanTable t) ∧
    colGet (cleanTable t) name = some c ∧
    ∀ v ∈ c, v.isMissing = true := by
  have hnums : numsOf c = [] := by
    unfold numsOf
    rw [List.filterMap_eq_nil]
    intro v hv
    rw [hall v hv]
  have hfill : cleanColumn c = c := by
    unfold cleanColumn
    split
    · unfold fillColumn
      rw [hnums]
      rfl
    · rfl
  refine ⟨rfl, ?_, ?_⟩
  · rw [colGet_cleanTable, hc]
    simp [hfill]
  · intro v hv
    rw [hall v hv]
    rfl

/-- C10, witness at a concrete table with an entirely missing column. -/
theorem c10_witness :
    load_data "data/water_potability.csv"
        (some (Except.ok [("Sulfate", [Value.missing, Value.missing])])) =
      LoadResult.ok
        (cleanTable [("Sulfate", [Value.missing, Value.missing])]) ∧
    colGet (cleanTable [("Sulfate", [Value.missing, Value.missing])])
      "Sulfate" = some [Value.missing, Value.missing] ∧
    ∀ v ∈ ([Value.missing, Value.missing] : Column), v.isMissing = true :=
  c10_all_missing_column "data/water_potability.csv" _ "Sulfate" _ rfl
    (by decide)
